import Mathlib

/-
Verification of the `beeves-speech-server` add-on background script
(`src/add-on/background.js`).

The script is event-driven glue code: at module load it calls
`browser.runtime.connectNative("beeves_speech_server")` and stores the
returned handle in `port`, logs the port object and the string "woot",
registers a `port.onMessage` listener that logs each inbound message as
`"Received: " + JSON.stringify(response)`, and registers a
`browser.browserAction.onClicked` listener that logs `"Sending:  ping"`
and calls `port.postMessage("ping")`.

We embed this as a state machine: the observable state records the
connection requests issued, the connection index currently held by the
`port` variable, the console log, and the messages posted (tagged with
the connection they were posted on).  Module load produces the initial
state; each platform event (inbound message, toolbar click) is handled
by the embedding of the corresponding listener.
-/

namespace Beeves

/-- JSON values, the payloads the native-messaging platform delivers to
`port.onMessage` listeners (the platform decodes the wire format to a
JSON value before dispatch) and accepts in `port.postMessage`. -/
inductive Json where
  | null : Json
  | bool : Bool → Json
  | num : Int → Json
  | str : String → Json
  | arr : List Json → Json
  | obj : List (String × Json) → Json

/-- Lower-case hexadecimal digit, used for control-character escapes. -/
def hexDigit (n : Nat) : Char :=
  if n < 10 then Char.ofNat (48 + n) else Char.ofNat (87 + n)

/-- The escape `JSON.stringify` applies to a single character inside a
string literal: quote and backslash are escaped, the named control
escapes are used, remaining control characters get a u-escape. -/
def escapeChar (c : Char) : String :=
  if c = '"' then "\\\""
  else if c = '\\' then "\\\\"
  else if c = '\x08' then "\\b"
  else if c = '\x0c' then "\\f"
  else if c = '\n' then "\\n"
  else if c = '\r' then "\\r"
  else if c = '\t' then "\\t"
  else if c.toNat < 32 then
    "\\u00" ++ String.mk [hexDigit (c.toNat / 16), hexDigit (c.toNat % 16)]
  else String.singleton c

/-- Escape every character of a string, as `JSON.stringify` does. -/
def escapeString (s : String) : String :=
  String.join (s.toList.map escapeChar)

/-- A JSON string literal: the escaped text between double quotes. -/
def quoteString (s : String) : String :=
  "\"" ++ escapeString s ++ "\""

mutual

/-- `JSON.stringify` on a JSON value. -/
def stringify : Json → String
  | Json.null => "null"
  | Json.bool b => if b then "true" else "false"
  | Json.num n => toString n
  | Json.str s => quoteString s
  | Json.arr xs => "[" ++ stringifyArr xs ++ "]"
  | Json.obj kvs => "\x7b" ++ stringifyObj kvs ++ "\x7d"

/-- Comma-separated serialization of the elements of a JSON array. -/
def stringifyArr : List Json → String
  | [] => ""
  | [x] => stringify x
  | x :: y :: xs => stringify x ++ "," ++ stringifyArr (y :: xs)

/-- Comma-separated serialization of the members of a JSON object. -/
def stringifyObj : List (String × Json) → String
  | [] => ""
  | [(k, v)] => quoteString k ++ ":" ++ stringify v
  | (k, v) :: kv :: kvs => quoteString k ++ ":" ++ stringify v ++ "," ++ stringifyObj (kv :: kvs)

end

example : stringify (Json.obj [("status", Json.str "ok")]) = "\x7b\"status\":\"ok\"\x7d" := by
  decide

/-- One console log entry.  `console.log(port)` logs the port object
itself (not a string); every other `console.log` in the script logs a
string. -/
inductive LogEntry where
  | portObject : LogEntry
  | text : String → LogEntry
deriving DecidableEq

/-- The observable state of the background script: the names passed to
`browser.runtime.connectNative` (in order), the index of the connection
currently held by the `port` variable, the console log, and the
payloads passed to `postMessage`, each tagged with the index of the
connection it was posted on. -/
structure BState where
  connections : List String
  port : Nat
  log : List LogEntry
  sent : List (Nat × Json)

/-- Module load
(`var port = browser.runtime.connectNative("beeves_speech_server");
console.log(port); console.log('woot')`): one connection request,
addressed to "beeves_speech_server"; `port` holds the connection it
returns (index 0); two startup log lines; nothing sent. -/
def startupState : BState :=
  { connections := ["beeves_speech_server"]
    port := 0
    log := [LogEntry.portObject, LogEntry.text "woot"]
    sent := [] }

/-- The `port.onMessage` listener:
`console.log("Received: " + JSON.stringify(response))`. -/
def onMessageListener (response : Json) (s : BState) : BState :=
  { s with log := s.log ++ [LogEntry.text ("Received: " ++ stringify response)] }

/-- The `browser.browserAction.onClicked` listener:
`console.log("Sending:  ping"); port.postMessage("ping")`. -/
def onClickedListener (s : BState) : BState :=
  let s1 := { s with log := s.log ++ [LogEntry.text "Sending:  ping"] }
  { s1 with sent := s1.sent ++ [(s1.port, Json.str "ping")] }

/-- A platform event dispatched to the background script: a message
from the native host arriving on the port, or a click on the browser
action. -/
inductive Event where
  | inbound : Json → Event
  | click : Event

/-- Dispatch one event to the listener registered for it. -/
def step (s : BState) : Event → BState
  | Event.inbound m => onMessageListener m s
  | Event.click => onClickedListener s

/-- A whole execution: module load followed by any sequence of events. -/
def run (events : List Event) : BState :=
  events.foldl step startupState

/-- The number of click events in an event sequence. -/
def countClicks : List Event → Nat
  | [] => 0
  | Event.click :: es => countClicks es + 1
  | Event.inbound _ :: es => countClicks es

theorem step_connections (s : BState) (e : Event) : (step s e).connections = s.connections := by
  cases e <;> rfl

theorem step_port (s : BState) (e : Event) : (step s e).port = s.port := by
  cases e <;> rfl

theorem foldl_connections (events : List Event) (s : BState) :
    (events.foldl step s).connections = s.connections := by
  induction events generalizing s with
  | nil => rfl
  | cons e es ih => rw [List.foldl_cons, ih, step_connections]

theorem foldl_port (events : List Event) (s : BState) :
    (events.foldl step s).port = s.port := by
  induction events generalizing s with
  | nil => rfl
  | cons e es ih => rw [List.foldl_cons, ih, step_port]

theorem foldl_sent (events : List Event) (s : BState) :
    (events.foldl step s).sent =
      s.sent ++ List.replicate (countClicks events) (s.port, Json.str "ping") := by
  induction events generalizing s with
  | nil => simp [countClicks]
  | cons e es ih =>
    cases e with
    | inbound m =>
      rw [List.foldl_cons, ih]
      simp [countClicks, step, onMessageListener]
    | click =>
      rw [List.foldl_cons, ih]
      simp [countClicks, step, onClickedListener, List.replicate_succ]

theorem run_connections (events : List Event) :
    (run events).connections = ["beeves_speech_server"] := by
  rw [run, foldl_connections]; rfl

theorem run_port (events : List Event) : (run events).port = 0 := by
  rw [run, foldl_port]; rfl

theorem run_sent (events : List Event) :
    (run events).sent = List.replicate (countClicks events) (0, Json.str "ping") := by
  rw [run, foldl_sent]; rfl

/-- A failure the native-messaging platform can signal to the script:
connection setup failing, the registered host being absent, or a send
on a dead channel failing. -/
inductive PlatformError where
  | connectFailed : PlatformError
  | hostAbsent : PlatformError
  | sendFailed : PlatformError

/-- Module load with the `connectNative` primitive allowed to fail.
The argument is the platform's outcome for
`browser.runtime.connectNative("beeves_speech_server")`.  The source
wraps the call in no try/catch, so a platform failure aborts module
load with that failure: no log line, no retry, no handler runs. -/
def startupFallible (connectResult : Except PlatformError Nat) : Except PlatformError BState :=
  match connectResult with
  | Except.error e => Except.error e
  | Except.ok portId =>
      Except.ok
        { connections := ["beeves_speech_server"]
          port := portId
          log := [LogEntry.portObject, LogEntry.text "woot"]
          sent := [] }

/-- The `onClicked` listener with the `postMessage` primitive allowed
to fail.  The first argument is the platform's outcome for
`port.postMessage("ping")` (`none` = success).  The listener logs
"Sending:  ping", then attempts the send exactly once; the source has
no try/catch, so a platform failure escapes the listener unchanged.
The result pairs the state after the listener with the unhandled
failure, if any. -/
def onClickedFallible (sendResult : Option PlatformError) (s : BState) :
    BState × Option PlatformError :=
  let s1 := { s with log := s.log ++ [LogEntry.text "Sending:  ping"] }
  match sendResult with
  | some e => (s1, some e)
  | none => ({ s1 with sent := s1.sent ++ [(s1.port, Json.str "ping")] }, none)

/-- C1: for every click event on the toolbar action, the click handler
performs exactly one outbound send on the connection, and the payload
of that send is the literal string "ping" — this holds from every
state, hence regardless of any inbound messages received before the
click. -/
theorem click_sends_exactly_one_ping (s : BState) :
    (step s Event.click).sent = s.sent ++ [(s.port, Json.str "ping")] :=
  rfl

/-- C2: for every inbound message, the inbound listener appends exactly
one log entry, whose text is "Received: " followed by the serialization
of the message (so it contains that serialization), and changes nothing
else: no send, no connection request, no reassignment of the port. -/
theorem inbound_logged_and_nothing_else (m : Json) (s : BState) :
    (onMessageListener m s).log = s.log ++ [LogEntry.text ("Received: " ++ stringify m)] ∧
    (onMessageListener m s).sent = s.sent ∧
    (onMessageListener m s).connections = s.connections ∧
    (onMessageListener m s).port = s.port :=
  ⟨rfl, rfl, rfl, rfl⟩

/-- C3: module load issues exactly one connection request, addressed to
the literal name "beeves_speech_server", and in every execution the
connection requests ever issued remain exactly that one. -/
theorem startup_connects_once_to_beeves :
    startupState.connections = ["beeves_speech_server"] ∧
    ∀ events : List Event, (run events).connections = ["beeves_speech_server"] :=
  ⟨rfl, run_connections⟩

/-- C4: no outbound send except in direct response to a click: module
load sends nothing, the inbound listener sends nothing, and in every
execution the messages sent are exactly one "ping" per click event on
the port held since startup. -/
theorem sends_only_on_click :
    startupState.sent = [] ∧
    (∀ (s : BState) (m : Json), (step s (Event.inbound m)).sent = s.sent) ∧
    (∀ events : List Event,
      (run events).sent = List.replicate (countClicks events) (startupState.port, Json.str "ping")) :=
  ⟨rfl, fun _ _ => rfl, run_sent⟩

/-- The concrete scenario of C5: the extension loads, the host sends
the message with member "status" mapped to "ok", then the user clicks
the toolbar icon. -/
def scenario : List Event :=
  [Event.inbound (Json.obj [("status", Json.str "ok")]), Event.click]

/-- C5: in the load / host-sends-status-ok / click scenario, the
connection is to "beeves_speech_server"; after the two startup lines
the log shows the line with the exact text
`Received: \x7b"status":"ok"\x7d`, then the exact line
`Sending:  ping` (two spaces); and the payload "ping" is transmitted
on the startup connection. -/
theorem scenario_status_ok_then_click :
    (run scenario).connections = ["beeves_speech_server"] ∧
    (run scenario).log =
      [LogEntry.portObject, LogEntry.text "woot",
       LogEntry.text "Received: \x7b\"status\":\"ok\"\x7d",
       LogEntry.text "Sending:  ping"] ∧
    (run scenario).sent = [(0, Json.str "ping")] :=
  ⟨rfl, by decide, rfl⟩

/-- C6: in the scenario with no inbound messages and no clicks, the
state stays the startup state: nothing is ever sent, and the log holds
only the two startup lines (the port object and "woot"). -/
theorem idle_scenario_sends_nothing :
    run [] = startupState ∧
    (run []).sent = [] ∧
    (run []).log = [LogEntry.portObject, LogEntry.text "woot"] :=
  ⟨rfl, rfl, rfl⟩

/-- C7: at most one connection exists at any point: module load creates
exactly one, every execution has at most one, and every step (inbound
handling, click handling) preserves both the set of connections and the
port that holds the single one. -/
theorem single_connection_invariant :
    startupState.connections.length = 1 ∧
    (∀ events : List Event, (run events).connections.length ≤ 1) ∧
    (∀ (s : BState) (e : Event),
      (step s e).connections = s.connections ∧ (step s e).port = s.port) :=
  ⟨rfl,
   fun events => by rw [run_connections]; decide,
   fun s e => ⟨step_connections s e, step_port s e⟩⟩

/-- C8: no failure is caught or handled: a connection-setup failure
(host absent included) escapes module load exactly as the platform
raised it, and a send failure escapes the click listener exactly as
raised — with no retry (nothing is sent, the send is attempted once)
and no user notification (no log entry beyond the diagnostic line
emitted before the failing call). -/
theorem failures_propagate_unhandled :
    (∀ e : PlatformError, startupFallible (Except.error e) = Except.error e) ∧
    (∀ (e : PlatformError) (s : BState),
      (onClickedFallible (some e) s).2 = some e ∧
      (onClickedFallible (some e) s).1.sent = s.sent ∧
      (onClickedFallible (some e) s).1.log = s.log ++ [LogEntry.text "Sending:  ping"] ∧
      (onClickedFallible (some e) s).1.connections = s.connections) :=
  ⟨fun _ => rfl, fun _ _ => ⟨rfl, rfl, rfl, rfl⟩⟩

/-- C9: the inbound listener is deterministic and a pure function of
the message: from any state, the one log entry it appends is exactly
the text "Received: " concatenated with the serialization of the
message, so two deliveries of equal messages append identical
entries. -/
theorem inbound_log_deterministic (m : Json) (s1 s2 : BState) :
    (onMessageListener m s1).log.drop s1.log.length =
      [LogEntry.text ("Received: " ++ stringify m)] ∧
    (onMessageListener m s1).log.drop s1.log.length =
      (onMessageListener m s2).log.drop s2.log.length := by
  constructor
  · simp [onMessageListener]
  · simp [onMessageListener]

/-- C10: the port variable is never reassigned: every step preserves
it, every execution ends with the startup port, and every send in every
execution goes out on that same startup connection. -/
theorem port_never_reassigned :
    (∀ (s : BState) (e : Event), (step s e).port = s.port) ∧
    (∀ events : List Event, (run events).port = startupState.port) ∧
    (∀ events : List Event,
      (run events).sent.map Prod.fst = List.replicate (countClicks events) startupState.port) :=
  ⟨step_port,
   fun events => by rw [run_port]; rfl,
   fun events => by rw [run_sent, List.map_replicate]; rfl⟩

end Beeves
